import Mathlib

/-!
Shallow embedding of the HTTP client layer of `src/client.rs` (the arlox
repository): the session-state / authentication operations (`set_cookie`,
`remove_cookie`) and the generic request dispatcher (`request`) implemented
on `RwLock<HttpClient>`.

Effectful Rust code is embedded as pure state-passing functions. The network
is an explicit input (the probe response for `set_cookie`, a send oracle for
`request`). A Rust panic (`unwrap` / `expect`) is made explicit through the
`RunResult` outcome type. Header maps are association lists with the
lowercase names the `http` crate's `HeaderMap` normalises to.
-/

namespace Arlox

/-- Outcome of running a piece of Rust code that may panic: either a normal
value or a panic carrying the panic message. -/
inductive RunResult (α : Type) where
  | ok : α → RunResult α
  | panic : String → RunResult α
deriving DecidableEq, Repr

/-- Validity of a string as an HTTP header value, as checked by
`HeaderValue::from_str` in the `http` crate: every byte must be horizontal
tab, or at least 32 and not 127 (DEL). Characters above 127 encode to UTF-8
bytes that are all ≥ 128, hence valid, so checking per character is faithful. -/
def is_valid_header_value (s : String) : Bool :=
  s.data.all (fun c => c.toNat == 9 || (decide (32 ≤ c.toNat) && decide (c.toNat ≠ 127)))

/-- Insert into a header map, replacing any existing entry for the name,
as `HeaderMap::insert` does. -/
def headerInsert (m : List (String × String)) (k v : String) : List (String × String) :=
  m.filter (fun p => p.1 ≠ k) ++ [(k, v)]

/-- Lookup in a header map by (lowercase) name, as `HeaderMap::get`. -/
def headersGet (m : List (String × String)) (k : String) : Option String :=
  (m.find? (fun p => p.1 = k)).map Prod.snd

/-- `StatusCode::is_success` in the `http` crate: the range 200–299. -/
def is_success (status : Nat) : Bool :=
  decide (200 ≤ status) && decide (status ≤ 299)

/-- `StatusCode::canonical_reason` of the `http` crate (dependency), the
standard reason phrases; restricted to the common codes, `none` elsewhere. -/
def canonical_reason (status : Nat) : Option String :=
  match status with
  | 200 => some "OK"
  | 201 => some "Created"
  | 204 => some "No Content"
  | 301 => some "Moved Permanently"
  | 302 => some "Found"
  | 304 => some "Not Modified"
  | 400 => some "Bad Request"
  | 401 => some "Unauthorized"
  | 403 => some "Forbidden"
  | 404 => some "Not Found"
  | 405 => some "Method Not Allowed"
  | 409 => some "Conflict"
  | 429 => some "Too Many Requests"
  | 500 => some "Internal Server Error"
  | 502 => some "Bad Gateway"
  | 503 => some "Service Unavailable"
  | _ => none

/-- `Display` for `StatusCode`: the numeric code, a space, then the canonical
reason phrase (or a placeholder when unknown). This is what
`status.to_string()` produces in `request`. -/
def statusToString (status : Nat) : String :=
  toString status ++ " " ++ ((canonical_reason status).getD "<unknown status code>")

/-- The transport configuration held by the session state: the `Client` of
`HttpClient { client: Client }`. `Client::new()` has no default headers and
no cookie store; `set_cookie` builds one with both. -/
structure Client where
  default_headers : List (String × String)
  cookie_store : Bool
deriving DecidableEq, Repr

/-- `Client::new()` / `HttpClient::new()`: anonymous configuration. -/
def Client.new : Client :=
  { default_headers := [], cookie_store := false }

/-- The caller's request description (`HttpRequest` in `client.rs`). -/
structure HttpRequest where
  method : String
  url : String
  headers : Option (List (String × String))
  body : Option String
deriving DecidableEq, Repr

/-- What `request` actually puts on the wire: absolute URL
`format!("https://\x7b\x7d", data.url)`, body `unwrap_or_default`, and the
caller headers merged over the session's default headers. -/
structure SentRequest where
  method : String
  url : String
  headers : List (String × String)
  body : String
deriving DecidableEq, Repr

/-- Merge request-specific headers into the defaults, each inserted in order
(`RequestBuilder::headers` inserts every entry into the request's map, which
starts from the client's default headers). -/
def mergeHeaders (defaults extra : List (String × String)) : List (String × String) :=
  extra.foldl (fun acc kv => headerInsert acc kv.1 kv.2) defaults

/-- The request built by `request` before sending, from lines 90–97 of
`client.rs`. -/
def build_request (self : Client) (data : HttpRequest) : SentRequest :=
  { method := data.method
    url := "https://" ++ data.url
    headers := mergeHeaders self.default_headers (data.headers.getD [])
    body := data.body.getD "" }

/-- Modelled from the spec: `RobloxAPIResponseErrors` lives in the
repository's `errors` module, which is not under `src/`; the spec describes
the API Error Envelope as an ordered sequence of error objects, each
carrying a human-readable message. -/
structure RobloxAPIError where
  message : String
deriving DecidableEq, Repr

/-- Modelled from the spec: the envelope struct `RobloxAPIResponseErrors`
holding the ordered list of error entries. -/
structure RobloxAPIResponseErrors where
  errors : List RobloxAPIError
deriving DecidableEq, Repr

/-- A wire response as `request` consumes it: the HTTP status, and the two
possible body decodings (`res.json::<T>()` and
`res.json::<RobloxAPIResponseErrors>()`), each an `Except` carrying the
decode error description on failure. Only one decoding is ever inspected
per response, matching that `json` consumes the body. -/
structure WireResponse (T : Type) where
  status : Nat
  decodeT : Except String T
  decodeErrors : Except String RobloxAPIResponseErrors

/-- The dispatcher `request::<T>` of `client.rs` lines 87–126. The network
send is the oracle `send` from the built request to a transport result
(`Err` is the stringified `reqwest::Error`). The `expect("Unknown error")`
on an empty decoded envelope is a panic. -/
def request (T : Type) (self : Client) (data : HttpRequest)
    (send : SentRequest → Except String (WireResponse T)) :
    RunResult (Except String T) :=
  match send (build_request self data) with
  | Except.error err => RunResult.ok (Except.error err)
  | Except.ok res =>
    if is_success res.status then
      match res.decodeT with
      | Except.ok body => RunResult.ok (Except.ok body)
      | Except.error err => RunResult.ok (Except.error err)
    else
      match res.decodeErrors with
      | Except.ok body =>
        match body.errors.head? with
        | some error => RunResult.ok (Except.error error.message)
        | none => RunResult.panic "Unknown error"
      | Except.error _ => RunResult.ok (Except.error (statusToString res.status))

/-- The probe response `set_cookie` receives from the POST to the logout
endpoint: status and response headers. -/
structure ProbeResponse where
  status : Nat
  headers : List (String × String)
deriving DecidableEq, Repr

/-- `set_cookie` of `client.rs` lines 52–81, as a state transition on the
session's `Client`. Inputs: the raw cookie, the transport outcome of the
probe request (`Except.error` is a transport failure), and the current
configuration. `HeaderValue::from_str(cookie).unwrap()` panics on an invalid
header value; `.send().unwrap()` panics on transport failure. On the error
returns the state is untouched; on success the state is replaced by a
configuration with default headers cookie + x-csrf-token and a cookie store. -/
def set_cookie (cookie : String) (probe : Except String ProbeResponse)
    (self : Client) : RunResult (Except String Unit × Client) :=
  if is_valid_header_value cookie = false then
    RunResult.panic "called Result::unwrap() on an Err value: InvalidHeaderValue"
  else
    match probe with
    | Except.error e => RunResult.panic e
    | Except.ok res =>
      let headers := headerInsert [] "cookie" cookie
      if ¬ is_success res.status = true ∧ res.status ≠ 403 then
        RunResult.ok (Except.error "Invalid cookie", self)
      else
        match headersGet res.headers "x-csrf-token" with
        | none => RunResult.ok (Except.error "Failed to fetch X-CSRF-TOKEN", self)
        | some csrf =>
          RunResult.ok (Except.ok (),
            { default_headers := headerInsert headers "x-csrf-token" csrf
              cookie_store := true })

/-- `remove_cookie` of `client.rs` lines 83–85: replace the client with
`Client::new()`. -/
def remove_cookie (self : Client) : Client :=
  Client.new

/-- The spec's authentication error taxonomy (§7), mapped to the literal
error strings `set_cookie` returns: `InvalidCredential` is
`Err("Invalid cookie")`, `MissingAntiForgeryToken` is
`Err("Failed to fetch X-CSRF-TOKEN")`. `Network` has no returned string in
the code — the transport failure path panics instead. -/
inductive AuthError where
  | InvalidCredential
  | MissingAntiForgeryToken
  | Network
deriving DecidableEq, Repr

/-- The error string `set_cookie` actually produces for each spec-level
`AuthError`; `Network` is never returned by the code (the path panics), so
it has no code string and is given the empty placeholder. -/
def AuthError.message : AuthError → String
  | AuthError.InvalidCredential => "Invalid cookie"
  | AuthError.MissingAntiForgeryToken => "Failed to fetch X-CSRF-TOKEN"
  | AuthError.Network => ""

/-- The session states reachable from process start (`HTTP` initialised with
`HttpClient::new()`) by any sequence of `set_cookie` and `remove_cookie`
calls (`request` never writes the state). -/
inductive Reachable : Client → Prop where
  | init : Reachable Client.new
  | auth (c : String) (p : Except String ProbeResponse) (st st2 : Client)
      (r : Except String Unit) : Reachable st →
      set_cookie c p st = RunResult.ok (r, st2) → Reachable st2
  | deauth (st : Client) : Reachable st → Reachable (remove_cookie st)

/-- Helper: every normal (non-panicking) return of `set_cookie` either left
the state untouched and returned an error string, or returned `Ok(())` and
installed the cookie + csrf configuration with the cookie store enabled. -/
theorem set_cookie_ok_cases (c : String) (p : Except String ProbeResponse)
    (st st2 : Client) (r : Except String Unit)
    (h : set_cookie c p st = RunResult.ok (r, st2)) :
    (st2 = st ∧ ∃ e, r = Except.error e) ∨
    (r = Except.ok () ∧ ∃ csrf, st2 =
      { default_headers := [("cookie", c), ("x-csrf-token", csrf)]
        cookie_store := true }) := by
  by_cases hv : is_valid_header_value c = false
  · simp [set_cookie, hv] at h
  · cases p with
    | error e => simp [set_cookie, hv] at h
    | ok res =>
      cases hcs : headersGet res.headers "x-csrf-token" with
      | none =>
        simp [set_cookie, hv, hcs] at h
        split at h <;>
        · simp only [RunResult.ok.injEq, Prod.mk.injEq] at h
          exact Or.inl ⟨h.2.symm, _, h.1.symm⟩
      | some csrf =>
        simp [set_cookie, hv, hcs, headerInsert] at h
        split at h
        · simp only [RunResult.ok.injEq, Prod.mk.injEq] at h
          exact Or.inl ⟨h.2.symm, _, h.1.symm⟩
        · simp only [RunResult.ok.injEq, Prod.mk.injEq] at h
          exact Or.inr ⟨h.1.symm, csrf, h.2.symm⟩

/-- C1, counterexample: at a 404 response whose body decodes as a well-formed
envelope with zero error entries, `request` panics ("Unknown error", from the
`expect` on `errors.first()`) instead of returning `Err` with the textual
HTTP status — so the claim fails on the zero-entries case it includes. -/
theorem C1_counterexample :
    request Unit Client.new ⟨"GET", "users.roblox.com/v1/users/0", none, none⟩
        (fun _ => Except.ok ⟨404, Except.error "decode", Except.ok ⟨[]⟩⟩)
      = RunResult.panic "Unknown error" := by
  rfl

/-- C1 (amended): for every dispatched request whose response has a non-2xx
status, if the body fails to decode as the API error envelope, `request`
returns `Err` with the textual HTTP status and does not panic; but if the
body decodes as an envelope with zero error entries, `request` panics. -/
theorem C1_envelope_fallback (T : Type) (self : Client) (data : HttpRequest)
    (status : Nat) (dT : Except String T) (e : String)
    (h : is_success status = false) :
    request T self data (fun _ => Except.ok ⟨status, dT, Except.error e⟩)
      = RunResult.ok (Except.error (statusToString status)) ∧
    request T self data (fun _ => Except.ok ⟨status, dT, Except.ok ⟨[]⟩⟩)
      = RunResult.panic "Unknown error" := by
  constructor <;> simp [request, h]

/-- C1 witness: instantiation at status 500 with a malformed envelope and
with an empty envelope. -/
theorem C1_witness :
    is_success 500 = false ∧
    (request Unit Client.new ⟨"GET", "x", none, none⟩
        (fun _ => Except.ok ⟨500, Except.error "d", Except.error "bad json"⟩)
      = RunResult.ok (Except.error (statusToString 500)) ∧
     request Unit Client.new ⟨"GET", "x", none, none⟩
        (fun _ => Except.ok ⟨500, Except.error "d", Except.ok ⟨[]⟩⟩)
      = RunResult.panic "Unknown error") :=
  ⟨by decide, C1_envelope_fallback Unit Client.new ⟨"GET", "x", none, none⟩
    500 (Except.error "d") "bad json" (by decide)⟩

/-- C2, counterexample: when the probe request fails at the transport level,
`set_cookie` panics with the transport error (`.send().unwrap()` on line 61)
— it does not return `AuthError::Network` or any other error value. -/
theorem C2_counterexample :
    set_cookie "valid" (Except.error "connection timed out") Client.new
      = RunResult.panic "connection timed out" := by
  rfl

/-- C2 (amended): for every call to `set_cookie` with a header-valid cookie
in which the probe request fails at the transport level, `set_cookie` panics
with the transport error instead of returning through its `Result` type. -/
theorem C2_transport_panics (cookie e : String) (st : Client)
    (h : is_valid_header_value cookie = true) :
    set_cookie cookie (Except.error e) st = RunResult.panic e := by
  simp [set_cookie, h]

/-- C2 witness: concrete transport failure. -/
theorem C2_witness :
    is_valid_header_value "c" = true ∧
    set_cookie "c" (Except.error "dns failure") Client.new
      = RunResult.panic "dns failure" :=
  ⟨by decide, C2_transport_panics "c" "dns failure" Client.new (by decide)⟩

/-- C3, counterexample: there is no fixed non-empty host that `request`
prepends to every caller-supplied path — the URL is the scheme plus the
caller's string alone, so the host comes from the caller. -/
theorem C3_counterexample :
    ¬ ∃ host : String, host ≠ "" ∧ ∀ (self : Client) (data : HttpRequest),
        (build_request self data).url = "https://" ++ host ++ data.url := by
  rintro ⟨host, hne, hall⟩
  have h := hall Client.new ⟨"GET", "", none, none⟩
  simp [build_request] at h
  have h2 := congrArg String.length h
  simp [String.length_append] at h2
  have hz : host = "" := by
    cases host with
    | mk d =>
      simp at h2
      simp [h2]
  exact hne hz

/-- C3 (amended): `request` builds the target URL as the fixed secure scheme
"https://" concatenated with the caller-supplied `url` string; the host is
part of that caller-supplied string, not fixed by the core. -/
theorem C3_url_scheme_prefix (self : Client) (data : HttpRequest) :
    (build_request self data).url = "https://" ++ data.url :=
  rfl

/-- C4: for every non-2xx response whose body decodes as a well-formed
envelope with at least one entry, `request` returns `Err` equal to the
message of the first entry, for every length of the entry list. -/
theorem C4_first_error_wins (T : Type) (self : Client) (data : HttpRequest)
    (status : Nat) (dT : Except String T)
    (e0 : RobloxAPIError) (rest : List RobloxAPIError)
    (h : is_success status = false) :
    request T self data (fun _ => Except.ok ⟨status, dT, Except.ok ⟨e0 :: rest⟩⟩)
      = RunResult.ok (Except.error e0.message) := by
  simp [request, h]

/-- C4 witness: a 400 response with a two-entry envelope yields the first
entry's message. -/
theorem C4_witness :
    is_success 400 = false ∧
    request Unit Client.new ⟨"GET", "x", none, none⟩
        (fun _ => Except.ok ⟨400, Except.error "d",
          Except.ok ⟨[⟨"first message"⟩, ⟨"second message"⟩]⟩⟩)
      = RunResult.ok (Except.error "first message") :=
  ⟨by decide, C4_first_error_wins Unit Client.new ⟨"GET", "x", none, none⟩
    400 (Except.error "d") ⟨"first message"⟩ [⟨"second message"⟩] (by decide)⟩

/-- C5: for every 2xx response, if the body decodes as `T` then `request`
returns `Ok` with exactly the decoded value; if decoding fails, `request`
returns `Err` with the decode error description. -/
theorem C5_success_branch (T : Type) (self : Client) (data : HttpRequest)
    (status : Nat) (v : T) (derr : String)
    (env1 env2 : Except String RobloxAPIResponseErrors)
    (h : is_success status = true) :
    request T self data (fun _ => Except.ok ⟨status, Except.ok v, env1⟩)
      = RunResult.ok (Except.ok v) ∧
    request T self data (fun _ => Except.ok ⟨status, Except.error derr, env2⟩)
      = RunResult.ok (Except.error derr) := by
  constructor <;> simp [request, h]

/-- C5 witness: a 200 response decoded as the value 7, and one whose decode
fails with a message. -/
theorem C5_witness :
    is_success 200 = true ∧
    (request Nat Client.new ⟨"GET", "x", none, none⟩
        (fun _ => Except.ok ⟨200, Except.ok 7, Except.error "e"⟩)
      = RunResult.ok (Except.ok 7) ∧
     request Nat Client.new ⟨"GET", "x", none, none⟩
        (fun _ => Except.ok ⟨200, Except.error "missing field", Except.error "e"⟩)
      = RunResult.ok (Except.error "missing field")) :=
  ⟨by decide, C5_success_branch Nat Client.new ⟨"GET", "x", none, none⟩
    200 7 "missing field" (Except.error "e") (Except.error "e") (by decide)⟩

/-- C6: for every `set_cookie` call that succeeds (probe status success or
403, anti-forgery header present), the session state is replaced by a
configuration whose default headers hold both the raw cookie and the derived
anti-forgery token, with cookie persistence enabled. -/
theorem C6_success_installs (cookie : String) (res : ProbeResponse)
    (st : Client) (csrf : String)
    (hc : is_valid_header_value cookie = true)
    (hs : is_success res.status = true ∨ res.status = 403)
    (ht : headersGet res.headers "x-csrf-token" = some csrf) :
    set_cookie cookie (Except.ok res) st =
      RunResult.ok (Except.ok (),
        { default_headers := [("cookie", cookie), ("x-csrf-token", csrf)]
          cookie_store := true }) ∧
    headersGet [("cookie", cookie), ("x-csrf-token", csrf)] "cookie"
      = some cookie ∧
    headersGet [("cookie", cookie), ("x-csrf-token", csrf)] "x-csrf-token"
      = some csrf := by
  refine ⟨?_, by simp [headersGet], by simp [headersGet]⟩
  rcases hs with hs | hs <;> simp [set_cookie, hc, hs, ht, headerInsert]

/-- C6 witness: a 200 probe carrying a csrf token installs both headers. -/
theorem C6_witness :
    is_valid_header_value "k" = true ∧
    (is_success 200 = true ∨ (200 : Nat) = 403) ∧
    headersGet [("x-csrf-token", "tok")] "x-csrf-token" = some "tok" ∧
    set_cookie "k" (Except.ok ⟨200, [("x-csrf-token", "tok")]⟩) Client.new =
      RunResult.ok (Except.ok (),
        { default_headers := [("cookie", "k"), ("x-csrf-token", "tok")]
          cookie_store := true }) :=
  ⟨by decide, Or.inl (by decide), by decide,
    (C6_success_installs "k" ⟨200, [("x-csrf-token", "tok")]⟩ Client.new "tok"
      (by decide) (Or.inl (by decide)) (by decide)).1⟩

/-- C7: every `set_cookie` call that returns an error leaves the session
state exactly as before; in the status-rejection case (status neither
success nor 403) the returned error is the `InvalidCredential` string. -/
theorem C7_failure_preserves_state (cookie : String)
    (probe : Except String ProbeResponse) (st : Client) :
    (∀ e st2, set_cookie cookie probe st = RunResult.ok (Except.error e, st2) →
      st2 = st) ∧
    (∀ res, probe = Except.ok res → is_valid_header_value cookie = true →
      is_success res.status = false → res.status ≠ 403 →
      set_cookie cookie probe st
        = RunResult.ok (Except.error AuthError.InvalidCredential.message, st)) := by
  constructor
  · intro e st2 h
    rcases set_cookie_ok_cases cookie probe st st2 (Except.error e) h with
      ⟨hst, _⟩ | ⟨hok, _⟩
    · exact hst
    · exact absurd hok (by simp)
  · intro res hp hc hs h403
    subst hp
    simp [set_cookie, hc, hs, h403, AuthError.message]

/-- C7 witness: a 500 probe leaves `Client.new` unchanged and returns the
invalid-credential error. -/
theorem C7_witness :
    set_cookie "k" (Except.ok ⟨500, []⟩) Client.new
      = RunResult.ok (Except.error AuthError.InvalidCredential.message,
          Client.new) :=
  (C7_failure_preserves_state "k" (Except.ok ⟨500, []⟩) Client.new).2
    ⟨500, []⟩ rfl (by decide) (by decide) (by decide)

/-- C8: when the probe status is acceptable (success or 403) but the
anti-forgery header is absent from the probe response, `set_cookie` fails
with the missing-anti-forgery-token error (state untouched). -/
theorem C8_missing_token (cookie : String) (res : ProbeResponse) (st : Client)
    (hc : is_valid_header_value cookie = true)
    (hs : is_success res.status = true ∨ res.status = 403)
    (ht : headersGet res.headers "x-csrf-token" = none) :
    set_cookie cookie (Except.ok res) st
      = RunResult.ok
          (Except.error AuthError.MissingAntiForgeryToken.message, st) := by
  rcases hs with hs | hs <;>
    simp [set_cookie, hc, hs, ht, AuthError.message]

/-- C8 witness: a 403 probe with no `x-csrf-token` header fails with the
missing-token error. -/
theorem C8_witness :
    set_cookie "k" (Except.ok ⟨403, [("other", "v")]⟩) Client.new
      = RunResult.ok (Except.error AuthError.MissingAntiForgeryToken.message,
          Client.new) :=
  C8_missing_token "k" ⟨403, [("other", "v")]⟩ Client.new
    (by decide) (Or.inr rfl) (by decide)

/-- C9: in every session state reachable by any sequence of `set_cookie`,
`remove_cookie` and `request` operations, the published configuration
carries either both of the cookie header and the anti-forgery header, or
neither of them — never exactly one. -/
theorem C9_all_or_nothing (st : Client) (h : Reachable st) :
    (headersGet st.default_headers "cookie" ≠ none ∧
     headersGet st.default_headers "x-csrf-token" ≠ none) ∨
    (headersGet st.default_headers "cookie" = none ∧
     headersGet st.default_headers "x-csrf-token" = none) := by
  induction h with
  | init => exact Or.inr ⟨rfl, rfl⟩
  | auth c p s s2 r hs heq ih =>
    rcases set_cookie_ok_cases c p s s2 r heq with ⟨hs2, _⟩ | ⟨_, csrf, hs2⟩
    · rw [hs2]; exact ih
    · subst hs2; exact Or.inl ⟨by simp [headersGet], by simp [headersGet]⟩
  | deauth s hs ih => exact Or.inr ⟨rfl, rfl⟩

/-- C9 witness: the invariant at the initial anonymous state. -/
theorem C9_witness :
    (headersGet Client.new.default_headers "cookie" ≠ none ∧
     headersGet Client.new.default_headers "x-csrf-token" ≠ none) ∨
    (headersGet Client.new.default_headers "cookie" = none ∧
     headersGet Client.new.default_headers "x-csrf-token" = none) :=
  C9_all_or_nothing Client.new Reachable.init

/-- C10: for every cookie string containing a byte that is not legal in an
HTTP header value (e.g. a newline), `set_cookie` panics while constructing
the `Cookie` header (`HeaderValue::from_str(cookie).unwrap()`), instead of
returning an error through its declared `Result` type. -/
theorem C10_panic_on_invalid_header (cookie : String)
    (probe : Except String ProbeResponse) (st : Client)
    (h : is_valid_header_value cookie = false) :
    set_cookie cookie probe st
      = RunResult.panic
          "called Result::unwrap() on an Err value: InvalidHeaderValue" := by
  simp [set_cookie, h]

/-- C10 witness: a cookie containing a newline is rejected by the header
validity check and makes `set_cookie` panic. -/
theorem C10_witness :
    is_valid_header_value "a\nb" = false ∧
    set_cookie "a\nb" (Except.ok ⟨200, [("x-csrf-token", "t")]⟩) Client.new
      = RunResult.panic
          "called Result::unwrap() on an Err value: InvalidHeaderValue" :=
  ⟨by decide, C10_panic_on_invalid_header "a\nb"
    (Except.ok ⟨200, [("x-csrf-token", "t")]⟩) Client.new (by decide)⟩

end Arlox
